import Mathlib

/-!
Shallow embedding of the inference-serving core of the heart-disease
prediction service: the pydantic request boundary, the feature-vector
builder, the two FastAPI `/predict` handlers (plain deployment and the
monitored variant), the model loader, and the Prometheus middleware.

Numbers are modelled as exact rationals (`ℚ`) and integers (`ℤ`);
Python exceptions are modelled with `Except String`.
-/

namespace HeartService

/-- A JSON scalar as it arrives at the request boundary. -/
inductive JsonVal where
  | jint (n : ℤ)
  | jfloat (q : ℚ)
  | jstr (s : String)
  | jbool (b : Bool)
  | jnull
deriving DecidableEq, Repr

/-- The validated request body: the pydantic `HeartPatient` model of
`deployment/app/main.py` lines 41-54 and `docker_monitor/app/main.py`
lines 30-43 (both declare exactly these 13 fields with these types). -/
structure HeartPatient where
  age : ℚ
  sex : ℤ
  cp : ℤ
  trestbps : ℚ
  chol : ℚ
  fbs : ℤ
  restecg : ℤ
  thalach : ℚ
  exang : ℤ
  oldpeak : ℚ
  slope : ℤ
  ca : ℚ
  thal : ℤ
deriving DecidableEq, Repr

/-- The canonical column order, as written in `deployment/app/main.py`
lines 66-67 (`column_names`) and `docker_monitor/app/main.py` lines
73-74 (`feature_columns`). -/
def columnNames : List String :=
  ["age", "sex", "cp", "trestbps", "chol", "fbs", "restecg",
   "thalach", "exang", "oldpeak", "slope", "ca", "thal"]

/-- Look a field up in the raw request body (an association list of
field name to JSON value), as a JSON object lookup does. -/
def lookupField (input : List (String × JsonVal)) (k : String) : Option JsonVal :=
  List.lookup k input

/-- Lax numeric parsing of a JSON string, modelling pydantic's lax
str→float coercion (Python float(str)) for plain decimal strings such
as "120", "-4.5"; scientific notation, "inf"/"nan" and surrounding
whitespace are not modelled.  No theorem relies on the unmodelled
corners. -/
def parseDecimal (s : String) : Option ℚ :=
  let neg := s.startsWith "-"
  let t := if neg then s.drop 1 else s
  let mag : Option ℚ :=
    match t.split (fun c => c = '.') with
    | [w] => (w.toNat?).map (fun n => (n : ℚ))
    | [w, f] =>
      match w.toNat?, f.toNat? with
      | some wn, some fn => some (mkRat (wn * 10 ^ f.length + fn) (10 ^ f.length))
      | _, _ => none
    | _ => none
  mag.map (fun q => if neg then -q else q)

/-- Pydantic lax validation of a `float`-annotated field: a missing
value is an error; a float or int value is accepted, and a numeric
string is coerced; null, booleans (as in pydantic v2; v1 would coerce
them) and non-numeric strings are validation errors. -/
def getFloat : Option JsonVal → Except String ℚ
  | some (.jfloat q) => .ok q
  | some (.jint n) => .ok (n : ℚ)
  | some (.jstr s) =>
    match parseDecimal s with
    | some q => .ok q
    | none => .error "value is not a valid float"
  | some _ => .error "value is not a valid float"
  | none => .error "field required"

/-- Pydantic lax validation of an `int`-annotated field: a missing
value is an error; an int is accepted, an integral float and an
integer string are coerced (as in pydantic v2 lax mode; v1 would also
truncate non-integral floats and coerce booleans); null, booleans and
non-numeric strings are validation errors. -/
def getInt : Option JsonVal → Except String ℤ
  | some (.jint n) => .ok n
  | some (.jfloat q) =>
    if q.den = 1 then .ok q.num else .error "value is not a valid integer"
  | some (.jstr s) =>
    match s.toInt? with
    | some n => .ok n
    | none => .error "value is not a valid integer"
  | some _ => .error "value is not a valid integer"
  | none => .error "field required"

/-- Whether the lax `int`-field validation accepts a present value. -/
def acceptsInt (v : JsonVal) : Bool :=
  match getInt (some v) with
  | .ok _ => true
  | .error _ => false

/-- Whether the lax `float`-field validation accepts a present value. -/
def acceptsFloat (v : JsonVal) : Bool :=
  match getFloat (some v) with
  | .ok _ => true
  | .error _ => false

/-- The per-field acceptance test the request boundary applies to a
present value, following each field's declared type (`float` or `int`)
in the pydantic models. -/
def fieldAccepted : String → JsonVal → Bool
  | "age", v => acceptsFloat v
  | "sex", v => acceptsInt v
  | "cp", v => acceptsInt v
  | "trestbps", v => acceptsFloat v
  | "chol", v => acceptsFloat v
  | "fbs", v => acceptsInt v
  | "restecg", v => acceptsInt v
  | "thalach", v => acceptsFloat v
  | "exang", v => acceptsInt v
  | "oldpeak", v => acceptsFloat v
  | "slope", v => acceptsInt v
  | "ca", v => acceptsFloat v
  | "thal", v => acceptsInt v
  | _, _ => false

/-- The request boundary: pydantic parsing of a raw JSON body into a
`HeartPatient`.  Each of the 13 annotated fields is looked up by name
and passed through the lax, coercing type validation of its
declaration; the declarations carry no range constraints, so no
domain check happens here. -/
def validate (input : List (String × JsonVal)) : Except String HeartPatient := do
  let age ← getFloat (lookupField input "age")
  let sex ← getInt (lookupField input "sex")
  let cp ← getInt (lookupField input "cp")
  let trestbps ← getFloat (lookupField input "trestbps")
  let chol ← getFloat (lookupField input "chol")
  let fbs ← getInt (lookupField input "fbs")
  let restecg ← getInt (lookupField input "restecg")
  let thalach ← getFloat (lookupField input "thalach")
  let exang ← getInt (lookupField input "exang")
  let oldpeak ← getFloat (lookupField input "oldpeak")
  let slope ← getInt (lookupField input "slope")
  let ca ← getFloat (lookupField input "ca")
  let thal ← getInt (lookupField input "thal")
  return { age, sex, cp, trestbps, chol, fbs, restecg,
           thalach, exang, oldpeak, slope, ca, thal }

/-- The value a `HeartPatient` carries under a given column name
(`patient.dict()` viewed as a name-indexed lookup). -/
def fieldValue (p : HeartPatient) : String → Option ℚ
  | "age" => some p.age
  | "sex" => some (p.sex : ℚ)
  | "cp" => some (p.cp : ℚ)
  | "trestbps" => some p.trestbps
  | "chol" => some p.chol
  | "fbs" => some (p.fbs : ℚ)
  | "restecg" => some (p.restecg : ℚ)
  | "thalach" => some p.thalach
  | "exang" => some (p.exang : ℚ)
  | "oldpeak" => some p.oldpeak
  | "slope" => some (p.slope : ℚ)
  | "ca" => some p.ca
  | "thal" => some (p.thal : ℚ)
  | _ => none

/-- Feature Vector Builder of the deployment service
(`deployment/app/main.py` lines 68-71): the single DataFrame row is
written out positionally, attribute by attribute, in canonical order. -/
def buildFeatures (p : HeartPatient) : List ℚ :=
  [p.age, (p.sex : ℚ), (p.cp : ℚ), p.trestbps, p.chol, (p.fbs : ℚ),
   (p.restecg : ℚ), p.thalach, (p.exang : ℚ), p.oldpeak, (p.slope : ℚ),
   p.ca, (p.thal : ℚ)]

/-- Feature Vector Builder of the monitored service
(`docker_monitor/app/main.py` line 75):
`pd.DataFrame([patient.dict()])[feature_columns]` selects the columns
by name in the canonical order. -/
def buildFeaturesMonitor (p : HeartPatient) : List ℚ :=
  columnNames.filterMap (fieldValue p)

/-- The Scored Model Handle: `predict` returning a label and the
optional `predict_proba` capability (`predictProba = none` models a
handle on which `hasattr(model, "predict_proba")` is false).  Either
call may raise, modelled with `Except String`. -/
structure ModelHandle where
  predict : List ℚ → Except String ℤ
  predictProba : Option (List ℚ → Except String (ℚ × ℚ))

/-- An HTTP outcome: a success body with a status code, or an
`HTTPException` with a status code and a detail string. -/
inductive HttpResult (α : Type) where
  | ok (status : Nat) (body : α)
  | error (status : Nat) (detail : String)
deriving DecidableEq, Repr

/-- The JSON body returned by the deployment `/predict`
(`deployment/app/main.py` lines 82-86). -/
structure PredictResponse where
  prediction : ℤ
  probability : ℚ
  risk : String
deriving DecidableEq, Repr

/-- The Python message of the `AttributeError` raised by
`model.predict(...)` when the module-level `model` is still `None`
after a failed load. -/
def noneTypeMsg : String := "'NoneType' object has no attribute 'predict'"

/-- The deployment `/predict` handler (`deployment/app/main.py` lines
62-88).  `model` is the module global: `none` when the startup load
failed (the recorded `load_error` string is never consulted by this
handler).  Everything in the `try` block that raises is caught by the
blanket `except` and returned as status 400 with `str(e)` as detail. -/
def predictDeployment (model : Option ModelHandle) (data : HeartPatient) :
    HttpResult PredictResponse :=
  match model with
  | none =>
    -- `model.predict(features)` on `None` raises AttributeError,
    -- caught at line 87 and mapped to HTTPException(400, str(e)).
    .error 400 noneTypeMsg
  | some m =>
    let features := buildFeatures data
    match m.predict features with
    | .error e => .error 400 e
    | .ok prediction =>
      let probE : Except String ℚ :=
        match m.predictProba with
        | some pp => (pp features).map (fun pr => pr.2)
        | none => (m.predict features).map (fun l => (l : ℚ))
      match probE with
      | .error e => .error 400 e
      | .ok probability =>
        -- the Python literal 0.5 is the exact rational mkRat 1 2
        .ok 200 { prediction, probability,
                  risk := if probability > mkRat 1 2 then "HIGH" else "LOW" }

/-- The JSON body returned by the monitored `/predict`
(`docker_monitor/app/main.py` lines 88-93), restricted to its
decision content.  The HTTP layer additionally serializes
`round(probability, 4)` as `confidence` and the elapsed wall-clock
time as `response_time`; wall-clock time is not representable here and
the rounding is presentation-only, so the raw probability is kept. -/
structure MonitorResponse where
  prediction : ℤ
  probability : ℚ
  risk_level : String
deriving DecidableEq, Repr

/-- The Python message of the `AttributeError` raised by
`model.predict_proba(...)` on a handle without that attribute. -/
def noProbaMsg : String := "object has no attribute 'predict_proba'"

/-- The monitored `/predict` handler (`docker_monitor/app/main.py`
lines 67-97).  It calls `predict_proba` unconditionally — there is no
`hasattr` guard and no label fallback — and any exception is caught
and mapped to HTTPException(400, "Prediction error: " ++ str(e)). -/
def predictMonitor (model : ModelHandle) (patient : HeartPatient) :
    HttpResult MonitorResponse :=
  let test_df := buildFeaturesMonitor patient
  match model.predict test_df with
  | .error e => .error 400 ("Prediction error: " ++ e)
  | .ok prediction =>
    match model.predictProba with
    | none => .error 400 ("Prediction error: " ++ noProbaMsg)
    | some pp =>
      match pp test_df with
      | .error e => .error 400 ("Prediction error: " ++ e)
      | .ok pr =>
        let probability := pr.2
        -- the Python literal 0.5 is the exact rational mkRat 1 2
        .ok 200 { prediction, probability,
                  risk_level := if probability > mkRat 1 2 then "HIGH RISK" else "LOW RISK" }

/-- Model Availability State (§3 of the spec): set once at startup. -/
inductive ModelState where
  | notLoaded
  | loaded (h : ModelHandle)
  | loadFailed (reason : String)

/-- The deployment startup loader (`deployment/app/main.py` lines
24-37).  The filesystem is abstracted as `fs : String → Bool`
(`os.path.exists`) and deserialization as
`deser : String → Except String ModelHandle` (`joblib.load`, whose
failure is a raised exception).  The surrounding `try/except` turns
either failure into a recorded `load_error`; the function is total, so
startup always completes. -/
def loadModel (fs : String → Bool) (deser : String → Except String ModelHandle)
    (path : String) : ModelState :=
  if fs path then
    match deser path with
    | .ok h => .loaded h
    | .error e => .loadFailed e
  else
    .loadFailed ("Model file not found: " ++ path)

/-- The monitored service's startup load (`docker_monitor/app/main.py`
line 27): `model = joblib.load("models/heart_disease_pipeline_prod.joblib")`
with no guard, at module import time.  A raised exception propagates
(`Except.error`) and aborts process startup; no `ModelState` is ever
recorded. -/
def monitorStartup (deser : String → Except String ModelHandle)
    (path : String) : Except String ModelHandle :=
  deser path

/-- The deployment health probe (`deployment/app/main.py` lines 57-59).
It is given the model availability state to formalise "does not depend
on model state": the body ignores it. -/
def read_root (_st : ModelState) : HttpResult String :=
  .ok 200 "Heart Disease Prediction API ✅"

/-- The monitored health probe (`docker_monitor/app/main.py` lines
62-65); the body ignores the model state. -/
def rootMonitor (_st : ModelState) : HttpResult (String × String) :=
  .ok 200 ("Heart Disease API (MONITORED) ✅", "/metrics")

/-- The Prometheus label key of `REQUEST_COUNT`: method, endpoint
path, status code. -/
abbrev CountKey := String × String × Nat

/-- The metric state touched by the `prometheus_metrics` middleware:
the `api_active_users` gauge and the `api_requests_total` counter
family, one count per label key. -/
structure Metrics where
  activeUsers : ℤ
  requestCount : CountKey → ℕ

/-- Increment one labelled counter of a family, leaving every other
label untouched (`Counter.labels(...).inc()`). -/
def bump (f : CountKey → ℕ) (k : CountKey) : CountKey → ℕ :=
  fun k' => if k' = k then f k' + 1 else f k'

/-- The `prometheus_metrics` HTTP middleware
(`docker_monitor/app/main.py` lines 45-60).  `callNext` is the
downstream handler's outcome: `.ok status` when it returns a response,
`.error e` when it raises.  The middleware increments the gauge on
entry; on return it counts the response's actual status then
decrements; on an exception it decrements, counts status 500 and
re-raises (the first component of the result is the propagated
outcome). -/
def prometheusMetrics (method endpoint : String) (callNext : Except String Nat)
    (m : Metrics) : Except String Nat × Metrics :=
  let m1 : Metrics := { m with activeUsers := m.activeUsers + 1 }
  match callNext with
  | .ok status =>
    let m2 : Metrics := { m1 with requestCount := bump m1.requestCount (method, endpoint, status) }
    let m3 : Metrics := { m2 with activeUsers := m2.activeUsers - 1 }
    (.ok status, m3)
  | .error e =>
    let m2 : Metrics := { m1 with activeUsers := m1.activeUsers - 1 }
    let m3 : Metrics := { m2 with requestCount := bump m2.requestCount (method, endpoint, 500) }
    (.error e, m3)

/-- The concrete record of the end-to-end scenario (§8 of the spec). -/
def scenarioRecord : HeartPatient :=
  { age := 45, sex := 1, cp := 0, trestbps := 120, chol := 200, fbs := 0,
    restecg := 0, thalach := 150, exang := 0, oldpeak := 0, slope := 1,
    ca := 0, thal := 3 }

/-- A stub handle returning label 1 and probabilities [0.3, 0.7]. -/
def scenarioStub : ModelHandle :=
  { predict := fun _ => .ok 1,
    predictProba := some (fun _ => .ok (mkRat 3 10, mkRat 7 10)) }

/-- A stub handle with no `predict_proba` capability, predicting 1. -/
def labelOnlyStub : ModelHandle :=
  { predict := fun _ => .ok 1, predictProba := none }

/-- The scenario record's raw JSON body with the fields in canonical
order. -/
def canonicalInput : List (String × JsonVal) :=
  [("age", .jfloat 45), ("sex", .jint 1), ("cp", .jint 0),
   ("trestbps", .jfloat 120), ("chol", .jfloat 200), ("fbs", .jint 0),
   ("restecg", .jint 0), ("thalach", .jfloat 150), ("exang", .jint 0),
   ("oldpeak", .jfloat 0), ("slope", .jint 1), ("ca", .jfloat 0),
   ("thal", .jint 3)]

/-- The same raw JSON body with the fields supplied in reverse order. -/
def shuffledInput : List (String × JsonVal) :=
  [("thal", .jint 3), ("ca", .jfloat 0), ("slope", .jint 1),
   ("oldpeak", .jfloat 0), ("exang", .jint 0), ("thalach", .jfloat 150),
   ("restecg", .jint 0), ("fbs", .jint 0), ("chol", .jfloat 200),
   ("trestbps", .jfloat 120), ("cp", .jint 0), ("sex", .jint 1),
   ("age", .jfloat 45)]

/-- A raw body whose values are type-correct but out of the declared
§3 domains: age = -5 (violates age > 0), sex = 7 (not in \x7b0,1\x7d),
thal = 99 (not in \x7b1,2,3\x7d). -/
def outOfDomainInput : List (String × JsonVal) :=
  [("age", .jfloat (-5)), ("sex", .jint 7), ("cp", .jint 0),
   ("trestbps", .jfloat 120), ("chol", .jfloat 200), ("fbs", .jint 0),
   ("restecg", .jint 0), ("thalach", .jfloat 150), ("exang", .jint 0),
   ("oldpeak", .jfloat 0), ("slope", .jint 1), ("ca", .jfloat 0),
   ("thal", .jint 99)]

/-- An empty metric state, for concrete instantiations. -/
def emptyMetrics : Metrics := { activeUsers := 0, requestCount := fun _ => 0 }

/-- A filesystem on which no path exists (`os.path.exists` false). -/
def absentFs : String → Bool := fun _ => false

/-- A deserializer that always raises (`joblib.load` on a missing or
corrupt artifact). -/
def failingDeser : String → Except String ModelHandle :=
  fun _ => .error "No such file or directory: models/heart_disease_pipeline_prod.joblib"

/- ------------------------------------------------------------------ -/
/- Helper lemmas                                                      -/
/- ------------------------------------------------------------------ -/

theorem bind_ok_inv {α β : Type} {x : Except String α} {f : α → Except String β}
    {b : β} (h : x.bind f = .ok b) : ∃ a, x = .ok a ∧ f a = .ok b := by
  cases x with
  | error e => simp [Except.bind] at h
  | ok a => exact ⟨a, rfl, by simpa [Except.bind] using h⟩

theorem getFloat_ok_isSome {o : Option JsonVal} {q : ℚ}
    (h : getFloat o = .ok q) : o.isSome := by
  cases o with
  | none => simp [getFloat] at h
  | some v => rfl

theorem getInt_ok_isSome {o : Option JsonVal} {n : ℤ}
    (h : getInt o = .ok n) : o.isSome := by
  cases o with
  | none => simp [getInt] at h
  | some v => rfl

theorem getFloat_ok_accepted {o : Option JsonVal} {q : ℚ}
    (h : getFloat o = .ok q) :
    ∃ v, o = some v ∧ acceptsFloat v = true ∧ v ≠ .jnull := by
  cases o with
  | none => simp [getFloat] at h
  | some v =>
    refine ⟨v, rfl, by simp [acceptsFloat, h], ?_⟩
    rintro rfl
    simp [getFloat] at h

theorem getInt_ok_accepted {o : Option JsonVal} {n : ℤ}
    (h : getInt o = .ok n) :
    ∃ v, o = some v ∧ acceptsInt v = true ∧ v ≠ .jnull := by
  cases o with
  | none => simp [getInt] at h
  | some v =>
    refine ⟨v, rfl, by simp [acceptsInt, h], ?_⟩
    rintro rfl
    simp [getInt] at h

theorem ite_risk_iff (q t : ℚ) (hi lo : String) (hne : hi ≠ lo) :
    (((if q > t then hi else lo) = hi) ↔ q > t) ∧
    (q = t → (if q > t then hi else lo) = lo) := by
  constructor
  · split_ifs with hq
    · exact iff_of_true rfl hq
    · constructor
      · intro hc
        exact absurd hc.symm hne
      · intro hc
        exact absurd hc hq
  · intro hq
    subst hq
    simp

theorem half_eq : mkRat 1 2 = (1/2 : ℚ) := by
  rw [Rat.mkRat_eq_div]
  norm_num

theorem predictDeployment_ok_inv {model : Option ModelHandle}
    {data : HeartPatient} {st : Nat} {r : PredictResponse}
    (h : predictDeployment model data = .ok st r) :
    st = 200 ∧ r.risk = (if r.probability > mkRat 1 2 then "HIGH" else "LOW") := by
  cases model with
  | none => simp [predictDeployment] at h
  | some m =>
    cases hp : m.predict (buildFeatures data) with
    | error e => simp [predictDeployment, hp] at h
    | ok l =>
      cases hq : m.predictProba with
      | none =>
        simp [predictDeployment, hp, hq, Except.map] at h
        obtain ⟨hst, hr⟩ := h
        subst hst
        refine ⟨rfl, ?_⟩
        rw [← hr]
      | some pp =>
        cases hpp : pp (buildFeatures data) with
        | error e => simp [predictDeployment, hp, hq, hpp, Except.map] at h
        | ok pr =>
          simp [predictDeployment, hp, hq, hpp, Except.map] at h
          obtain ⟨hst, hr⟩ := h
          subst hst
          refine ⟨rfl, ?_⟩
          rw [← hr]

theorem predictMonitor_ok_inv {m : ModelHandle} {data : HeartPatient}
    {st : Nat} {r : MonitorResponse}
    (h : predictMonitor m data = .ok st r) :
    st = 200 ∧
      r.risk_level =
        (if r.probability > mkRat 1 2 then "HIGH RISK" else "LOW RISK") := by
  cases hp : m.predict (buildFeaturesMonitor data) with
  | error e => simp [predictMonitor, hp] at h
  | ok l =>
    cases hq : m.predictProba with
    | none => simp [predictMonitor, hp, hq] at h
    | some pp =>
      cases hpp : pp (buildFeaturesMonitor data) with
      | error e => simp [predictMonitor, hp, hq, hpp] at h
      | ok pr =>
        simp [predictMonitor, hp, hq, hpp] at h
        obtain ⟨hst, hr⟩ := h
        subst hst
        refine ⟨rfl, ?_⟩
        rw [← hr]

/- ------------------------------------------------------------------ -/
/- Claim theorems                                                     -/
/- ------------------------------------------------------------------ -/

/-- C1 (code bug): while no model is loaded, the deployment `/predict`
handler does NOT fail with a 503 ServiceUnavailable carrying the
recorded load-failure reason.  It attempts the model call on `None`,
and the resulting AttributeError is caught by the blanket `except` and
surfaced as HTTP 400 with the AttributeError text — the same status
class the handler uses for prediction errors, and the recorded
`load_error` string is never consulted.  This contradicts the code's
own comment ("the server will stay up and return a 503 on requests"). -/
theorem c1_predict_without_model_returns_400 (data : HeartPatient) :
    predictDeployment none data = .error 400 noneTypeMsg ∧ (400 : Nat) ≠ 503 :=
  ⟨rfl, by decide⟩

/-- C2: every decision produced by either `/predict` handler carries
the HIGH tier exactly when its probability is strictly greater than
1/2; a probability of exactly 1/2 yields the LOW tier. -/
theorem c2_risk_threshold (model : Option ModelHandle) (data : HeartPatient)
    (st : Nat) (r : PredictResponse) (m2 : ModelHandle) (data2 : HeartPatient)
    (st2 : Nat) (r2 : MonitorResponse)
    (h : predictDeployment model data = .ok st r)
    (h2 : predictMonitor m2 data2 = .ok st2 r2) :
    ((r.risk = "HIGH" ↔ r.probability > 1/2) ∧
      (r.probability = 1/2 → r.risk = "LOW")) ∧
    ((r2.risk_level = "HIGH RISK" ↔ r2.probability > 1/2) ∧
      (r2.probability = 1/2 → r2.risk_level = "LOW RISK")) := by
  obtain ⟨-, hr⟩ := predictDeployment_ok_inv h
  obtain ⟨-, hr2⟩ := predictMonitor_ok_inv h2
  constructor
  · rw [hr, half_eq]
    exact ite_risk_iff r.probability (1/2) "HIGH" "LOW" (by decide)
  · rw [hr2, half_eq]
    exact ite_risk_iff r2.probability (1/2) "HIGH RISK" "LOW RISK" (by decide)

/-- C2 witness: the threshold theorem applied to the concrete scenario
stub (label 1, probabilities [0.3, 0.7]) on both handlers. -/
theorem c2_witness :
    ({ prediction := 1, probability := mkRat 7 10, risk := "HIGH" } : PredictResponse).risk
        = "HIGH" ↔
      ({ prediction := 1, probability := mkRat 7 10, risk := "HIGH" } : PredictResponse).probability
        > 1/2 :=
  ((c2_risk_threshold (some scenarioStub) scenarioRecord 200 ⟨1, mkRat 7 10, "HIGH"⟩
      scenarioStub scenarioRecord 200 ⟨1, mkRat 7 10, "HIGH RISK"⟩ rfl rfl).1).1

/-- C3: the request boundary's parse depends only on what value each
field name maps to, never on the order the fields were supplied in the
raw body, and both services' feature vector builders emit exactly the
canonical 13-column order (the positional deployment builder agrees
with the monitored builder's by-name selection along `columnNames`). -/
theorem c3_canonical_order (i1 i2 : List (String × JsonVal)) (p : HeartPatient)
    (hlk : ∀ k ∈ columnNames, lookupField i1 k = lookupField i2 k) :
    validate i1 = validate i2 ∧ buildFeatures p = buildFeaturesMonitor p := by
  have h1 := hlk "age" (by simp [columnNames])
  have h2 := hlk "sex" (by simp [columnNames])
  have h3 := hlk "cp" (by simp [columnNames])
  have h4 := hlk "trestbps" (by simp [columnNames])
  have h5 := hlk "chol" (by simp [columnNames])
  have h6 := hlk "fbs" (by simp [columnNames])
  have h7 := hlk "restecg" (by simp [columnNames])
  have h8 := hlk "thalach" (by simp [columnNames])
  have h9 := hlk "exang" (by simp [columnNames])
  have h10 := hlk "oldpeak" (by simp [columnNames])
  have h11 := hlk "slope" (by simp [columnNames])
  have h12 := hlk "ca" (by simp [columnNames])
  have h13 := hlk "thal" (by simp [columnNames])
  exact ⟨by simp only [validate, h1, h2, h3, h4, h5, h6, h7, h8, h9, h10, h11,
    h12, h13], rfl⟩

/-- C3 witness: the scenario body supplied in reverse field order
parses identically to the canonical-order body, and the two builders
agree on the scenario record. -/
theorem c3_witness :
    validate shuffledInput = validate canonicalInput ∧
    buildFeatures scenarioRecord = buildFeaturesMonitor scenarioRecord :=
  c3_canonical_order shuffledInput canonicalInput scenarioRecord (by decide)

/-- C4: on a loaded handle without the `predict_proba` capability, the
deployment handler falls back to the predicted label cast to a
probability (hence 0 or 1 for a binary label), and the risk tier is
derived from that fallback value by the same strict-threshold rule.
The monitored handler produces no decision at all on such a handle
(its unconditional `predict_proba` call raises), so the claim is
vacuous there. -/
theorem c4_label_fallback (m : ModelHandle) (data : HeartPatient) (l : ℤ)
    (hnp : m.predictProba = none)
    (hpred : m.predict (buildFeatures data) = .ok l)
    (hl : l = 0 ∨ l = 1) :
    predictDeployment (some m) data =
      .ok 200 { prediction := l, probability := (l : ℚ),
                risk := if (l : ℚ) > mkRat 1 2 then "HIGH" else "LOW" } ∧
    ((l : ℚ) = 0 ∨ (l : ℚ) = 1) ∧
    (∀ st b, predictMonitor m data ≠ .ok st b) := by
  refine ⟨?_, ?_, ?_⟩
  · simp [predictDeployment, hnp, hpred, Except.map]
  · rcases hl with rfl | rfl
    · left
      norm_num
    · right
      norm_num
  · intro st b hc
    cases hp2 : m.predict (buildFeaturesMonitor data) with
    | error e => simp [predictMonitor, hp2] at hc
    | ok l2 => simp [predictMonitor, hp2, hnp] at hc

/-- C4 witness: the fallback theorem applied to a concrete handle with
no `predict_proba`, predicting label 1 on the scenario record. -/
theorem c4_witness :
    predictDeployment (some labelOnlyStub) scenarioRecord =
      .ok 200 { prediction := 1, probability := ((1 : ℤ) : ℚ),
                risk := if ((1 : ℤ) : ℚ) > mkRat 1 2 then "HIGH" else "LOW" } :=
  (c4_label_fallback labelOnlyStub scenarioRecord 1 rfl rfl (Or.inr rfl)).1

/-- C5 counterexample: the monitored service's startup
(`docker_monitor/app/main.py` line 27) loads the artifact with no
guard, so when deserialization raises — here the modelled
`joblib.load` failure on a missing artifact — the exception propagates
and startup aborts; no `LOAD_FAILED` state is recorded and the
process does not continue, refuting "startup is never aborted" for
this load attempt. -/
theorem c5_monitor_startup_aborts :
    monitorStartup failingDeser "models/heart_disease_pipeline_prod.joblib" =
      .error "No such file or directory: models/heart_disease_pipeline_prod.joblib" :=
  rfl

/-- C5 (amended): the deployment service's loader behaves as claimed —
a missing artifact resolves to `LOAD_FAILED` with a not-found message
naming the path, a failing deserialization resolves to `LOAD_FAILED`
with the raised message, a successful one to `LOADED`, and the loader
is a total function, so that startup always completes.  The monitored
service has no such guard and aborts instead. -/
theorem c5_loader_amended (fs : String → Bool)
    (deser : String → Except String ModelHandle) (path : String) :
    (fs path = false →
      loadModel fs deser path = .loadFailed ("Model file not found: " ++ path)) ∧
    (∀ e, fs path = true → deser path = .error e →
      loadModel fs deser path = .loadFailed e) ∧
    (∀ h, fs path = true → deser path = .ok h →
      loadModel fs deser path = .loaded h) := by
  refine ⟨fun hf => ?_, fun e hf he => ?_, fun h hf hd => ?_⟩ <;>
    simp [loadModel, *]

/-- C5 witness: the amended loader theorem applied to a filesystem on
which the artifact path does not exist. -/
theorem c5_loader_witness :
    loadModel absentFs failingDeser "models/heart_disease_pipeline_prod.joblib" =
      .loadFailed "Model file not found: models/heart_disease_pipeline_prod.joblib" :=
  (c5_loader_amended absentFs failingDeser
    "models/heart_disease_pipeline_prod.joblib").1 rfl

/-- C6 counterexample: a body whose values are type-correct but out of
every relevant §3 domain — age = -5 (≤ 0), sex = 7 (∉ \x7b0,1\x7d),
thal = 99 (∉ \x7b1,2,3\x7d) — is ACCEPTED by the request boundary: the
pydantic models annotate types only and declare no range constraints,
so no ValidationError is raised and the record reaches the builder. -/
theorem c6_out_of_domain_accepted :
    validate outOfDomainInput =
      .ok { age := -5, sex := 7, cp := 0, trestbps := 120, chol := 200, fbs := 0,
            restecg := 0, thalach := 150, exang := 0, oldpeak := 0, slope := 1,
            ca := 0, thal := 99 } :=
  rfl

/-- C6 (amended): the request boundary independently checks each of
the 13 fields for presence and for acceptability under its
declaration's lax, coercing type validation — a successfully validated
body contains every canonical field, every value passed the per-field
acceptance test of its declared type (so a missing field, a null, or a
value the coercion cannot convert yields a ValidationError before the
builder runs) — but range/domain constraints are not checked at all,
and the type check is lax: numeric strings and integral floats are
coerced rather than rejected. -/
theorem c6_presence_type_checked (input : List (String × JsonVal))
    (p : HeartPatient) (h : validate input = .ok p) :
    ∀ name ∈ columnNames, ∃ v, lookupField input name = some v ∧
      fieldAccepted name v = true ∧ v ≠ .jnull := by
  unfold validate at h
  obtain ⟨age, ha, h⟩ := bind_ok_inv h
  obtain ⟨sex, hs, h⟩ := bind_ok_inv h
  obtain ⟨cp, hcp, h⟩ := bind_ok_inv h
  obtain ⟨trestbps, htr, h⟩ := bind_ok_inv h
  obtain ⟨chol, hch, h⟩ := bind_ok_inv h
  obtain ⟨fbs, hfb, h⟩ := bind_ok_inv h
  obtain ⟨restecg, hre, h⟩ := bind_ok_inv h
  obtain ⟨thalach, hth, h⟩ := bind_ok_inv h
  obtain ⟨exang, hex, h⟩ := bind_ok_inv h
  obtain ⟨oldpeak, hol, h⟩ := bind_ok_inv h
  obtain ⟨slope, hsl, h⟩ := bind_ok_inv h
  obtain ⟨ca, hca, h⟩ := bind_ok_inv h
  obtain ⟨thal, hthal, h⟩ := bind_ok_inv h
  intro name hname
  fin_cases hname
  · exact getFloat_ok_accepted ha
  · exact getInt_ok_accepted hs
  · exact getInt_ok_accepted hcp
  · exact getFloat_ok_accepted htr
  · exact getFloat_ok_accepted hch
  · exact getInt_ok_accepted hfb
  · exact getInt_ok_accepted hre
  · exact getFloat_ok_accepted hth
  · exact getInt_ok_accepted hex
  · exact getFloat_ok_accepted hol
  · exact getInt_ok_accepted hsl
  · exact getFloat_ok_accepted hca
  · exact getInt_ok_accepted hthal

/-- C6 witness: the amended theorem applied to the canonical scenario
body, instantiated at the field "thal". -/
theorem c6_witness :
    ∃ v, lookupField canonicalInput "thal" = some v ∧
      fieldAccepted "thal" v = true ∧ v ≠ JsonVal.jnull :=
  c6_presence_type_checked canonicalInput scenarioRecord rfl "thal" (by decide)

/-- C7: the `api_active_users` gauge is incremented on entry and
decremented on every exit path of the middleware, so after any request
— whether the downstream handler returns or raises — the gauge is back
at its pre-call value. -/
theorem c7_gauge_net_zero (method endpoint : String)
    (callNext : Except String Nat) (m : Metrics) :
    ((prometheusMetrics method endpoint callNext m).2).activeUsers =
      m.activeUsers := by
  cases callNext <;> simp [prometheusMetrics]

/-- C8: both health probes return the same static 200 message whatever
the Model Availability State is. -/
theorem c8_health_static (s1 s2 : ModelState) :
    read_root s1 = read_root s2 ∧
    read_root s1 = .ok 200 "Heart Disease Prediction API ✅" ∧
    rootMonitor s1 = rootMonitor s2 ∧
    rootMonitor s1 = .ok 200 ("Heart Disease API (MONITORED) ✅", "/metrics") :=
  ⟨rfl, rfl, rfl, rfl⟩

/-- C9: the end-to-end scenario — the §8 record served against a stub
handle returning label 1 and probabilities [0.3, 0.7] — produces
exactly prediction 1, probability 0.7, risk HIGH. -/
theorem c9_end_to_end :
    predictDeployment (some scenarioStub) scenarioRecord =
      .ok 200 { prediction := 1, probability := 7/10, risk := "HIGH" } := by
  norm_num [predictDeployment, scenarioStub, Except.map, Rat.mkRat_eq_div]

/-- C10: on every request the middleware increments the
`api_requests_total` counter exactly once — labelled with the actual
response status when the handler returns, with status 500 when it
raises — every other label is left unchanged, and the handler's
outcome (including a raised exception) is propagated unmodified. -/
theorem c10_request_count_once (method endpoint : String)
    (callNext : Except String Nat) (m : Metrics) (key : CountKey)
    (hkey : key = match callNext with
      | .ok s => (method, endpoint, s)
      | .error _ => (method, endpoint, 500)) :
    (prometheusMetrics method endpoint callNext m).1 = callNext ∧
    (prometheusMetrics method endpoint callNext m).2.requestCount key =
      m.requestCount key + 1 ∧
    ∀ k, k ≠ key →
      (prometheusMetrics method endpoint callNext m).2.requestCount k =
        m.requestCount k := by
  subst hkey
  cases callNext with
  | ok s =>
    refine ⟨rfl, ?_, ?_⟩
    · simp [prometheusMetrics, bump]
    · intro k hk
      simp [prometheusMetrics, bump, hk]
  | error e =>
    refine ⟨rfl, ?_, ?_⟩
    · simp [prometheusMetrics, bump]
    · intro k hk
      simp [prometheusMetrics, bump, hk]

/-- C10 witness: the counting theorem applied to a successful POST
/predict request over the empty metric state, instantiated at a label
key different from the request's, which is left unchanged. -/
theorem c10_witness :
    (prometheusMetrics "POST" "/predict" (.ok 200) emptyMetrics).2.requestCount
        ("GET", "/", 200) =
      emptyMetrics.requestCount ("GET", "/", 200) :=
  (c10_request_count_once "POST" "/predict" (.ok 200) emptyMetrics
    ("POST", "/predict", 200) rfl).2.2 ("GET", "/", 200) (by decide)

end HeartService
